import Mathlib

/-
A shallow embedding of the remote catalog client of the AnimeWatcherQT
repository (src/AniDBClient.py and src/async_client.py).

The Python string builtins used by the client (str.startswith, str.split
with a one-character separator, str.strip, int(...)) are modelled as
transparent functions over the character list of the string, so that every
definition is executable and concrete runs evaluate by rfl or decide.
-/

set_option autoImplicit false

namespace AnimeWatcher

/-! ## Models of the Python string builtins -/

/-- Model of Python str.startswith: the first argument is the candidate
leading string, the second the character list searched in. -/
def strStartsWith : List Char → List Char → Bool
  | [], _ => true
  | _ :: _, [] => false
  | p :: ps, c :: cs => decide (p = c) && strStartsWith ps cs

/-- Python s.startswith(pre). -/
def pyStartswith (s pre : String) : Bool :=
  strStartsWith pre.data s.data

/-- Accumulator worker for splitting a character list on a single
separator character, keeping empty pieces, like Python str.split(sep). -/
def splitAux (sep : Char) (acc : List Char) : List Char → List (List Char)
  | [] => [acc.reverse]
  | c :: cs =>
    if c = sep then acc.reverse :: splitAux sep [] cs
    else splitAux sep (c :: acc) cs

/-- Python s.split(sep) for a one-character separator sep. -/
def pySplit (sep : Char) (s : String) : List String :=
  (splitAux sep [] s.data).map String.mk

/-- Whitespace test used by Python str.strip and int(...). -/
def isPySpace (c : Char) : Bool := c.isWhitespace

/-- Python str.strip on a character list: drop whitespace at both ends. -/
def stripList (l : List Char) : List Char :=
  ((l.dropWhile isPySpace).reverse.dropWhile isPySpace).reverse

/-- Python s.strip(). -/
def pyStrip (s : String) : String := String.mk (stripList s.data)

/-- After a leading digit, Python int(...) accepts digits with single
underscores strictly between digits. -/
def digitsUnd : List Char → Bool
  | [] => true
  | '_' :: c :: rest => c.isDigit && digitsUnd rest
  | c :: rest => c.isDigit && digitsUnd rest

/-- A valid Python integer body: a digit followed by digits and single
interior underscores. -/
def validIntChars : List Char → Bool
  | [] => false
  | c :: rest => c.isDigit && digitsUnd rest

/-- Numeric value of a digit list (underscores already removed). -/
def digitsVal (l : List Char) : Nat :=
  l.foldl (fun acc c => acc * 10 + (c.toNat - '0'.toNat)) 0

/-- Model of Python int(str): strips whitespace, allows one optional sign,
then requires a digit string (with interior underscores); any other input
raises ValueError, modelled as none. -/
def pyIntList (l : List Char) : Option Int :=
  let t := stripList l
  match t with
  | '+' :: rest =>
    if validIntChars rest then
      some (Int.ofNat (digitsVal (rest.filter (fun c => c != '_')))) else none
  | '-' :: rest =>
    if validIntChars rest then
      some (-(Int.ofNat (digitsVal (rest.filter (fun c => c != '_'))))) else none
  | _ =>
    if validIntChars t then
      some (Int.ofNat (digitsVal (t.filter (fun c => c != '_')))) else none

/-- Python int(s) on a string, returning none where Python raises ValueError. -/
def pyInt (s : String) : Option Int := pyIntList s.data

/-! ## The decoded records

AniDBClient.process_response builds a dict with 12 entries;
AsyncAniDBClient._process_anime_response builds one with 13 entries
(the extra english field from position 6). Fields are listed in the
construction order of the source dicts. -/

/-- The anime_info dict built by AniDBClient.process_response. -/
structure AnimeInfo where
  aid : Int
  year : String
  type : String
  romaji : String
  kanji : String
  synonyms : String
  episodes : Int
  ep_count : Int
  special_count : Int
  tag_name_list : String
  tag_id_list : String
  tag_weigth_list : String
deriving Repr, DecidableEq

/-- The result dict built by AsyncAniDBClient._process_anime_response. -/
structure AnimeInfoA where
  aid : Int
  year : String
  type : String
  romaji : String
  kanji : String
  english : String
  synonyms : String
  episodes : Int
  ep_count : Int
  special_count : Int
  tag_name_list : String
  tag_id_list : String
  tag_weigth_list : String
deriving Repr, DecidableEq

/-- Field extraction of AniDBClient.process_response from the pipe-split
payload parts, in the evaluation order of the source dict literal.
A none result models an uncaught IndexError or ValueError. -/
def decodeParts (parts : List String) : Option AnimeInfo :=
  (parts[0]?).bind fun p0 =>
  (pyInt p0).bind fun aid =>
  (parts[1]?).bind fun year =>
  (parts[2]?).bind fun ty =>
  (parts[4]?).bind fun romaji =>
  (parts[5]?).bind fun kanji =>
  (parts[7]?).bind fun synonyms =>
  (parts[8]?).bind fun p8 =>
  (pyInt p8).bind fun episodes =>
  (parts[9]?).bind fun p9 =>
  (pyInt p9).bind fun ep_count =>
  (parts[10]?).bind fun p10 =>
  (pyInt p10).bind fun special_count =>
  (parts[11]?).bind fun tag_name_list =>
  (parts[13]?).bind fun tag_id_list =>
  (parts[14]?).bind fun tag_weigth_list =>
  some { aid := aid, year := year, type := ty, romaji := romaji,
         kanji := kanji, synonyms := synonyms, episodes := episodes,
         ep_count := ep_count, special_count := special_count,
         tag_name_list := tag_name_list, tag_id_list := tag_id_list,
         tag_weigth_list := tag_weigth_list }

/-- AniDBClient.process_response: takes the second newline-separated line,
splits it on the pipe character, and extracts the fields. A none result
models the exception (IndexError or ValueError) the Python code raises. -/
def process_response (response_str : String) : Option AnimeInfo :=
  match (pySplit '\n' response_str)[1]? with
  | none => none
  | some line => decodeParts (pySplit '|' line)

/-- Field extraction of AsyncAniDBClient._process_anime_response, in the
evaluation order of the source dict literal (position 6 is the english
title). A none result models the except-branches returning None. -/
def decodePartsA (parts : List String) : Option AnimeInfoA :=
  (parts[0]?).bind fun p0 =>
  (pyInt p0).bind fun aid =>
  (parts[1]?).bind fun year =>
  (parts[2]?).bind fun ty =>
  (parts[4]?).bind fun romaji =>
  (parts[5]?).bind fun kanji =>
  (parts[6]?).bind fun english =>
  (parts[7]?).bind fun synonyms =>
  (parts[8]?).bind fun p8 =>
  (pyInt p8).bind fun episodes =>
  (parts[9]?).bind fun p9 =>
  (pyInt p9).bind fun ep_count =>
  (parts[10]?).bind fun p10 =>
  (pyInt p10).bind fun special_count =>
  (parts[11]?).bind fun tag_name_list =>
  (parts[13]?).bind fun tag_id_list =>
  (parts[14]?).bind fun tag_weigth_list =>
  some { aid := aid, year := year, type := ty, romaji := romaji,
         kanji := kanji, english := english, synonyms := synonyms,
         episodes := episodes, ep_count := ep_count,
         special_count := special_count, tag_name_list := tag_name_list,
         tag_id_list := tag_id_list, tag_weigth_list := tag_weigth_list }

/-- AsyncAniDBClient._process_anime_response: strips the data, requires the
first space-delimited token (the local variable code) to be 230, then
splits the second line on the pipe character and extracts the fields;
every exception path returns None. The Python locals response_str and
code are inlined. -/
def processAnimeResponse (data : String) : Option AnimeInfoA :=
  if (pySplit ' ' (pyStrip data)).headD "" ≠ "230" then none
  else
    match (pySplit '\n' (pyStrip data))[1]? with
    | none => none
    | some line => decodePartsA (pySplit '|' line)

/-! ## AniDBClient.authenticate response handling

authenticate returns (True, second space token) on a 200 or 201 response
and (False, first space token) otherwise, printing a distinct message for
each of the codes 500, 501, 502, 503, 504, 506. A none result models the
IndexError raised when a 200/201 response has no second space token. -/

/-- Return value of AniDBClient.authenticate as a function of the response
string: success flag and session key (on success) or the status code. -/
def authResult (response_str : String) : Option (Bool × String) :=
  if pyStartswith response_str "200" || pyStartswith response_str "201" then
    match (pySplit ' ' response_str)[1]? with
    | some tok => some (true, tok)
    | none => none
  else
    some (false, (pySplit ' ' response_str).headD "")

/-- Observable events of a client run: datagrams sent (with the value of
the injected clock at transmission), datagrams received, console prints,
the disambiguation dialog being opened, and process exit. -/
inductive Ev where
  | send (cmd : String) (t : Nat)
  | recv (msg : String)
  | print (msg : String)
  | dialog (name : String)
  | exited
deriving Repr, DecidableEq

/-- Console prints performed inside AniDBClient.authenticate on a
non-200/201 response (the source tests each code with its own if). -/
def authPrints (s : String) : List Ev :=
  (if pyStartswith s "500" then [Ev.print "Login Failed"] else []) ++
  (if pyStartswith s "501" then [Ev.print "Login Failed (No Login)"] else []) ++
  (if pyStartswith s "502" then [Ev.print "Access denied"] else []) ++
  (if pyStartswith s "503" then [Ev.print "Client outdated"] else []) ++
  (if pyStartswith s "504" then [Ev.print "Banned"] else []) ++
  (if pyStartswith s "506" then [Ev.print "Invalid Session"] else [])

/-- Outcome of running a client operation: a Python return value, an
uncaught exception, blocking forever on recvfrom with no incoming
datagram, or process termination through exit(). -/
inductive PyRes (α : Type) where
  | val (a : α)
  | exn
  | blocked
  | exited
deriving Repr, DecidableEq

/-- The mutable attributes of an AniDBClient instance that the query flow
touches: credentials, the session key, and whether the UDP socket has been
closed (socket operations on a closed socket raise OSError). -/
structure Client where
  username : String
  password : String
  session_key : String
  sockClosed : Bool
deriving Repr, DecidableEq

/-- The environment of a run: the queue of datagrams the transport will
deliver (empty queue means recvfrom blocks forever), the oracle of
disambiguation-dialog outcomes (none models a cancelled dialog), and the
injected clock. The client never sleeps or waits, so no operation ever
advances now. -/
structure Net where
  inbox : List String
  dialogs : List (Option String)
  now : Nat
deriving Repr, DecidableEq

/-- Result of a run of query_anidb: outcome, final client state, final
environment, and the trace of observable events. -/
structure RunResult where
  res : PyRes AnimeInfo
  client : Client
  net : Net
  trace : List Ev
deriving Repr, DecidableEq

/-- The AUTH command string of AniDBClient.authenticate. -/
def authCommand (c : Client) : String :=
  "AUTH user=" ++ c.username ++ "&pass=" ++ c.password ++
    "&protover=3&client=lewdwatcher&clientver=1"

/-- The by-name ANIME command string of AniDBClient.query_anidb. -/
def animeNameCommand (c : Client) (anime_name : String) : String :=
  "ANIME aname=" ++ anime_name ++ "&amask=b2f0e401070000&s=" ++ c.session_key

/-- The by-id ANIME command string of AniDBClient.query_anidb. -/
def animeIdCommand (c : Client) (id : String) : String :=
  "ANIME aid=" ++ id ++ "&amask=b2f0e401070000&s=" ++ c.session_key

/-- The LOGOUT command string of AniDBClient.close. -/
def logoutCommand (c : Client) : String :=
  "LOGOUT s=" ++ c.session_key ++ "&tag=byebye"

/-- One call of AniDBClient.query_anidb, following the source line by line.

On a 230 response it returns process_response. On a 330 response it opens
the AniDBFinderDialog itself: with an id it immediately sends the by-id
query and returns process_response of that reply, on cancel it calls
exit(). On a 501 response it prints, runs close() (LOGOUT round trip, then
the socket is closed), and then calls authenticate(); authenticate starts
with sendto on the now-closed socket, which raises OSError, so the re-login
and the recursive replay on source line 115 are unreachable and the call
ends in an uncaught exception. Any other response prints and calls exit(). -/
def runQuery (c : Client) (net : Net) (anime_name : String) : RunResult :=
  if c.sockClosed then ⟨PyRes.exn, c, net, []⟩ else
  let cmd := animeNameCommand c anime_name
  let tr0 := [Ev.send cmd net.now]
  match net.inbox with
  | [] => ⟨PyRes.blocked, c, { net with inbox := [] }, tr0⟩
  | resp :: rest =>
    let net1 : Net := { net with inbox := rest }
    let tr1 := tr0 ++ [Ev.recv resp]
    if pyStartswith resp "230" then
      match process_response resp with
      | some r => ⟨PyRes.val r, c, net1, tr1⟩
      | none => ⟨PyRes.exn, c, net1, tr1⟩
    else if pyStartswith resp "330" then
      let tr2 := tr1 ++
        [Ev.print ("Hentai " ++ anime_name ++ " not found"), Ev.dialog anime_name]
      let d := net1.dialogs.headD none
      let net2 : Net := { net1 with dialogs := net1.dialogs.tail }
      match d with
      | some id =>
        let tr3 := tr2 ++ [Ev.send (animeIdCommand c id) net.now]
        match net2.inbox with
        | [] => ⟨PyRes.blocked, c, { net2 with inbox := [] }, tr3⟩
        | resp2 :: rest2 =>
          let net3 : Net := { net2 with inbox := rest2 }
          let tr4 := tr3 ++ [Ev.recv resp2]
          match process_response resp2 with
          | some r => ⟨PyRes.val r, c, net3, tr4⟩
          | none => ⟨PyRes.exn, c, net3, tr4⟩
      | none => ⟨PyRes.exited, c, net2, tr2 ++ [Ev.exited]⟩
    else if pyStartswith resp "501" then
      let tr2 := tr1 ++ [Ev.print "Session closed ... relogging"]
      let tr3 := tr2 ++ [Ev.send (logoutCommand c) net.now]
      match net1.inbox with
      | [] => ⟨PyRes.blocked, c, { net1 with inbox := [] }, tr3⟩
      | respL :: restL =>
        let net2 : Net := { net1 with inbox := restL }
        let tr4 := tr3 ++ [Ev.recv respL] ++
          (if pyStartswith respL "byebye" then []
           else [Ev.print "Error during logout"])
        let c1 : Client := { c with sockClosed := true }
        -- authenticate() now calls sendto on the closed socket: OSError
        ⟨PyRes.exn, c1, net2, tr4⟩
    else
      ⟨PyRes.exited, c, net1,
        tr1 ++ [Ev.print ("Error: closing programm Code: " ++ c.session_key),
                Ev.exited]⟩

/-- A transmitted command is an ANIME query iff it starts with ANIME. -/
def isAnimeCmd (s : String) : Bool := strStartsWith "ANIME".data s.data

/-- A transmitted command is an AUTH command iff it starts with AUTH. -/
def isAuthCmd (s : String) : Bool := strStartsWith "AUTH".data s.data

/-- Number of ANIME commands transmitted in a trace. -/
def animeSendCount (tr : List Ev) : Nat :=
  tr.countP fun e => match e with
    | Ev.send cmd _ => isAnimeCmd cmd
    | _ => false

/-- Number of AUTH commands transmitted in a trace. -/
def authSendCount (tr : List Ev) : Nat :=
  tr.countP fun e => match e with
    | Ev.send cmd _ => isAuthCmd cmd
    | _ => false

/-- The injected-clock instants at which commands were transmitted. -/
def sendTimes (tr : List Ev) : List Nat :=
  tr.filterMap fun e => match e with
    | Ev.send _ t => some t
    | _ => none

/-! ## The HTTP-wrapped variant: AsyncAniDBClient.authenticate

The attributes assigned in AsyncAniDBClient.__init__ are credentials,
logger, session, session_key, base_url and port; the method body reads
self.config (an AttributeError) and, further down, the unbound name
auth_params (a NameError), both before the session.get that would transmit
the request. -/

/-- The instance attributes assigned by AsyncAniDBClient.__init__. -/
def asyncClientAttrs : List String :=
  ["credentials", "logger", "session", "session_key", "base_url", "port"]

/-- Python attribute lookup on an AsyncAniDBClient instance. -/
def asyncGetAttr (a : String) : Option Unit :=
  if asyncClientAttrs.contains a then some () else none

/-- Outcome of AsyncAniDBClient.authenticate. The success constructor is
what the method would need to produce for authentication to work. -/
inductive AAuth where
  | success (session_key : String)
  | bareRaiseError
  | attrError (attr : String)
  | nameError (name : String)
deriving Repr, DecidableEq

/-- Membership test of a key in the credentials dict. -/
def credsHasKey (creds : List (String × String)) (k : String) : Bool :=
  creds.any fun p => p.1 == k

/-- One call of AsyncAniDBClient.authenticate, with the trace of requests
it transmits. The credentials guard performs a bare raise (RuntimeError:
no active exception); otherwise the body reads self.config, which is not
among the attributes set by __init__, so an AttributeError is raised and
re-raised by the except-branch; even if config were defined, the command
construction references the unbound name auth_params (NameError) before
the session.get, so no request is ever transmitted. -/
def asyncAuthenticate (credentials : List (String × String)) :
    AAuth × List Ev :=
  if credentials.isEmpty ||
      !(credsHasKey credentials "username" &&
        credsHasKey credentials "password") then
    (AAuth.bareRaiseError, [])
  else
    match asyncGetAttr "config" with
    | none => (AAuth.attrError "config", [])
    | some _ => (AAuth.nameError "auth_params", [])

/-- AsyncAniDBClient.__aenter__: bare raise on empty credentials, else
creates the aiohttp session and calls authenticate, re-raising whatever it
raises; a none result would be a normal return of self. -/
def asyncAenter (credentials : List (String × String)) : Option AAuth :=
  if credentials.isEmpty then some AAuth.bareRaiseError
  else
    match asyncAuthenticate credentials with
    | (AAuth.success _, _) => none
    | (e, _) => some e

/-! ## Helper lemmas -/

theorem strMk_data (s : String) : String.mk s.data = s := rfl

theorem data_append (s t : String) : (s ++ t).data = s.data ++ t.data := rfl

theorem splitAux_ne_nil (sep : Char) (acc l : List Char) :
    splitAux sep acc l ≠ [] := by
  induction l generalizing acc with
  | nil => simp [splitAux]
  | cons c cs ih =>
    unfold splitAux
    by_cases h : c = sep <;> simp [h, ih]

theorem pySplit_ne_nil (sep : Char) (s : String) : pySplit sep s ≠ [] := by
  unfold pySplit
  simp [splitAux_ne_nil]

theorem splitAux_sep (sep : Char) (pre : List Char) (h : sep ∉ pre)
    (acc rest : List Char) :
    splitAux sep acc (pre ++ sep :: rest) =
      (acc.reverse ++ pre) :: splitAux sep [] rest := by
  induction pre generalizing acc with
  | nil => simp [splitAux]
  | cons c cs ih =>
    have hc : ¬ c = sep := fun hh => h (by simp [hh])
    have hcs : sep ∉ cs := fun hh => h (by simp [hh])
    show splitAux sep acc (c :: (cs ++ sep :: rest)) = _
    rw [splitAux, if_neg hc, ih hcs]
    simp

theorem pySplit_space_append (code text : String) (h : (' ' : Char) ∉ code.data) :
    pySplit ' ' (code ++ " " ++ text) = code :: pySplit ' ' text := by
  unfold pySplit
  have hsp : (" " : String).data = [' '] := rfl
  have hd : (code ++ " " ++ text).data = code.data ++ ' ' :: text.data := by
    rw [data_append, data_append, hsp, List.append_assoc, List.singleton_append]
  rw [hd, splitAux_sep ' ' code.data h [] text.data]
  simp [strMk_data]

theorem getElem?_zero_of_ne_nil (l : List String) (h : l ≠ []) :
    l[0]? = some (l.headD "") := by
  cases l with
  | nil => exact absurd rfl h
  | cons a t => simp

theorem authResult_success (s : String)
    (h : pyStartswith s "200" = true ∨ pyStartswith s "201" = true) :
    authResult s =
      match (pySplit ' ' s)[1]? with
      | some tok => some (true, tok)
      | none => none := by
  unfold authResult
  rcases h with h | h <;>
    simp only [h, Bool.true_or, Bool.or_true, if_true]

theorem authResult_fail (s : String)
    (h2 : pyStartswith s "200" = false) (h3 : pyStartswith s "201" = false) :
    authResult s = some (false, (pySplit ' ' s).headD "") := by
  unfold authResult
  simp only [h2, h3, Bool.or_self, Bool.false_eq_true, if_false]

theorem decodeParts_some_length (parts : List String) (r : AnimeInfo)
    (h : decodeParts parts = some r) : 15 ≤ parts.length := by
  unfold decodeParts at h
  obtain ⟨p0, h0, h⟩ := Option.bind_eq_some.mp h
  obtain ⟨aid, ha, h⟩ := Option.bind_eq_some.mp h
  obtain ⟨year, h1, h⟩ := Option.bind_eq_some.mp h
  obtain ⟨ty, h2, h⟩ := Option.bind_eq_some.mp h
  obtain ⟨rom, h4, h⟩ := Option.bind_eq_some.mp h
  obtain ⟨kan, h5, h⟩ := Option.bind_eq_some.mp h
  obtain ⟨syn, h7, h⟩ := Option.bind_eq_some.mp h
  obtain ⟨p8, h8, h⟩ := Option.bind_eq_some.mp h
  obtain ⟨ep, he, h⟩ := Option.bind_eq_some.mp h
  obtain ⟨p9, h9, h⟩ := Option.bind_eq_some.mp h
  obtain ⟨epc, he2, h⟩ := Option.bind_eq_some.mp h
  obtain ⟨p10, h10, h⟩ := Option.bind_eq_some.mp h
  obtain ⟨spc, he3, h⟩ := Option.bind_eq_some.mp h
  obtain ⟨tnl, h11, h⟩ := Option.bind_eq_some.mp h
  obtain ⟨til, h13, h⟩ := Option.bind_eq_some.mp h
  obtain ⟨twl, h14, h⟩ := Option.bind_eq_some.mp h
  obtain ⟨hlt, -⟩ := List.getElem?_eq_some.mp h14
  omega

theorem decodePartsA_some_length (parts : List String) (r : AnimeInfoA)
    (h : decodePartsA parts = some r) : 15 ≤ parts.length := by
  unfold decodePartsA at h
  obtain ⟨p0, h0, h⟩ := Option.bind_eq_some.mp h
  obtain ⟨aid, ha, h⟩ := Option.bind_eq_some.mp h
  obtain ⟨year, h1, h⟩ := Option.bind_eq_some.mp h
  obtain ⟨ty, h2, h⟩ := Option.bind_eq_some.mp h
  obtain ⟨rom, h4, h⟩ := Option.bind_eq_some.mp h
  obtain ⟨kan, h5, h⟩ := Option.bind_eq_some.mp h
  obtain ⟨eng, h6, h⟩ := Option.bind_eq_some.mp h
  obtain ⟨syn, h7, h⟩ := Option.bind_eq_some.mp h
  obtain ⟨p8, h8, h⟩ := Option.bind_eq_some.mp h
  obtain ⟨ep, he, h⟩ := Option.bind_eq_some.mp h
  obtain ⟨p9, h9, h⟩ := Option.bind_eq_some.mp h
  obtain ⟨epc, he2, h⟩ := Option.bind_eq_some.mp h
  obtain ⟨p10, h10, h⟩ := Option.bind_eq_some.mp h
  obtain ⟨spc, he3, h⟩ := Option.bind_eq_some.mp h
  obtain ⟨tnl, h11, h⟩ := Option.bind_eq_some.mp h
  obtain ⟨til, h13, h⟩ := Option.bind_eq_some.mp h
  obtain ⟨twl, h14, h⟩ := Option.bind_eq_some.mp h
  obtain ⟨hlt, -⟩ := List.getElem?_eq_some.mp h14
  omega

theorem decodeParts_short (parts : List String) (h : parts.length < 15) :
    decodeParts parts = none := by
  cases hd : decodeParts parts with
  | none => rfl
  | some r => exact absurd (decodeParts_some_length parts r hd) (by omega)

theorem decodePartsA_short (parts : List String) (h : parts.length < 15) :
    decodePartsA parts = none := by
  cases hd : decodePartsA parts with
  | none => rfl
  | some r => exact absurd (decodePartsA_some_length parts r hd) (by omega)

theorem isAnimeCmd_nameCommand (c : Client) (n : String) :
    isAnimeCmd (animeNameCommand c n) = true := rfl

theorem isAnimeCmd_idCommand (c : Client) (i : String) :
    isAnimeCmd (animeIdCommand c i) = true := rfl

theorem isAnimeCmd_logoutCommand (c : Client) :
    isAnimeCmd (logoutCommand c) = false := rfl

theorem isAnimeCmd_authCommand (c : Client) :
    isAnimeCmd (authCommand c) = false := rfl

theorem isAuthCmd_nameCommand (c : Client) (n : String) :
    isAuthCmd (animeNameCommand c n) = false := rfl

theorem isAuthCmd_idCommand (c : Client) (i : String) :
    isAuthCmd (animeIdCommand c i) = false := rfl

theorem isAuthCmd_logoutCommand (c : Client) :
    isAuthCmd (logoutCommand c) = false := rfl

theorem isAuthCmd_authCommand (c : Client) :
    isAuthCmd (authCommand c) = true := rfl

/-! ## Claim C4: numeric-tolerant parsing -/

/-- C4 counterexample: the claim says a payload whose episode-count
position fails integer parsing still decodes, with that field defaulting
to 0. On a concrete success payload whose position 8 is the non-numeric
string abc, both decoders fail outright (AniDBClient.process_response
raises ValueError, AsyncAniDBClient._process_anime_response returns None);
no record with a zero field is produced. -/
theorem c4_counterexample :
    process_response
      "230 ANIME\n1|2021|TV|pic|Rom|Kan|Eng|Syn|abc|12|0|tags|x|1,2|50,40"
      = none ∧
    processAnimeResponse
      "230 ANIME\n1|2021|TV|pic|Rom|Kan|Eng|Syn|abc|12|0|tags|x|1,2|50,40"
      = none :=
  ⟨rfl, rfl⟩

/-- C4 amended: for every 15-position payload whose episode-count position
(ordinal 8) fails integer parsing, both decoders fail to produce any
record at all — the field does not default to 0 and no partial record is
returned. -/
theorem c4_nonnumeric_episode_count_fails
    (p0 p1 p2 p3 p4 p5 p6 p7 p8 p9 p10 p11 p12 p13 p14 : String)
    (h8 : pyInt p8 = none) :
    decodeParts [p0, p1, p2, p3, p4, p5, p6, p7, p8, p9, p10, p11, p12, p13, p14]
      = none ∧
    decodePartsA [p0, p1, p2, p3, p4, p5, p6, p7, p8, p9, p10, p11, p12, p13, p14]
      = none := by
  cases h0 : pyInt p0 <;> simp [decodeParts, decodePartsA, h0, h8]

/-- C4 amended witness at a concrete payload with non-numeric position 8. -/
theorem c4_nonnumeric_episode_count_fails_witness :
    decodeParts ["1", "2021", "TV", "pic", "Rom", "Kan", "Eng", "Syn", "abc",
      "12", "0", "tags", "x", "1,2", "50,40"] = none ∧
    decodePartsA ["1", "2021", "TV", "pic", "Rom", "Kan", "Eng", "Syn", "abc",
      "12", "0", "tags", "x", "1,2", "50,40"] = none :=
  c4_nonnumeric_episode_count_fails "1" "2021" "TV" "pic" "Rom" "Kan" "Eng"
    "Syn" "abc" "12" "0" "tags" "x" "1,2" "50,40" rfl

/-! ## Claim C5: positional field mapping of the decoders -/

/-- C5 counterexample: the claim says the decoder maps exactly the
positions 0,1,2,4,5,6,7,8,9,10,11,13,14, leaving only 3 and 12 unused.
AniDBClient.process_response does not map position 6: two payloads that
differ only at position 6 decode to the same record (and the decode
succeeds, so the insensitivity is not vacuous). -/
theorem c5_counterexample :
    decodeParts ["1", "2021", "TV", "p3", "Rom", "Kan", "EngONE", "Syn",
      "12", "12", "0", "t", "p12", "1,2", "5,4"] =
    decodeParts ["1", "2021", "TV", "p3", "Rom", "Kan", "EngTWO", "Syn",
      "12", "12", "0", "t", "p12", "1,2", "5,4"] ∧
    (decodeParts ["1", "2021", "TV", "p3", "Rom", "Kan", "EngONE", "Syn",
      "12", "12", "0", "t", "p12", "1,2", "5,4"]).isSome = true :=
  ⟨rfl, rfl⟩

/-- C5 amended: on a 15-position payload whose numeric positions parse,
AniDBClient.process_response maps exactly the positions
0,1,2,4,5,7,8,9,10,11,13,14 (leaving 3, 6 and 12 unused), while
AsyncAniDBClient._process_anime_response maps exactly
0,1,2,4,5,6,7,8,9,10,11,13,14 (position 6 becomes the english field,
leaving 3 and 12 unused). -/
theorem c5_field_mapping
    (p0 p1 p2 p3 p4 p5 p6 p7 p8 p9 p10 p11 p12 p13 p14 : String)
    (a e1 e2 e3 : Int)
    (h0 : pyInt p0 = some a) (h8 : pyInt p8 = some e1)
    (h9 : pyInt p9 = some e2) (h10 : pyInt p10 = some e3) :
    decodeParts [p0, p1, p2, p3, p4, p5, p6, p7, p8, p9, p10, p11, p12, p13, p14]
      = some ⟨a, p1, p2, p4, p5, p7, e1, e2, e3, p11, p13, p14⟩ ∧
    decodePartsA [p0, p1, p2, p3, p4, p5, p6, p7, p8, p9, p10, p11, p12, p13, p14]
      = some ⟨a, p1, p2, p4, p5, p6, p7, e1, e2, e3, p11, p13, p14⟩ := by
  simp [decodeParts, decodePartsA, h0, h8, h9, h10]

/-- C5 amended witness at a concrete payload. -/
theorem c5_field_mapping_witness :
    decodeParts ["7", "2021", "TV", "x3", "Rom", "Kan", "Eng", "Syn", "26",
      "25", "2", "tnl", "x12", "9,8", "600,400"]
      = some ⟨7, "2021", "TV", "Rom", "Kan", "Syn", 26, 25, 2, "tnl", "9,8",
              "600,400"⟩ ∧
    decodePartsA ["7", "2021", "TV", "x3", "Rom", "Kan", "Eng", "Syn", "26",
      "25", "2", "tnl", "x12", "9,8", "600,400"]
      = some ⟨7, "2021", "TV", "Rom", "Kan", "Eng", "Syn", 26, 25, 2, "tnl",
              "9,8", "600,400"⟩ :=
  c5_field_mapping "7" "2021" "TV" "x3" "Rom" "Kan" "Eng" "Syn" "26" "25" "2"
    "tnl" "x12" "9,8" "600,400" 7 26 25 2 rfl rfl rfl rfl

/-! ## Claim C8: authentication status-code handling -/

/-- C8: for every authentication response text, a 200 or 201 status yields
success with the session token taken as the second whitespace-delimited
token (so the state becomes Authenticated), and each of the codes 500,
501, 502, 503, 504, 506 yields the failure result (False, code) — distinct
for each code since the result carries the code — with no session token. -/
theorem c8_auth_status_mapping (text : String) :
    authResult ("200" ++ " " ++ text) = some (true, (pySplit ' ' text).headD "") ∧
    authResult ("201" ++ " " ++ text) = some (true, (pySplit ' ' text).headD "") ∧
    ∀ code, code ∈ (["500", "501", "502", "503", "504", "506"] : List String) →
      authResult (code ++ " " ++ text) = some (false, code) := by
  refine ⟨?_, ?_, ?_⟩
  · rw [authResult_success ("200" ++ " " ++ text) (Or.inl rfl),
      pySplit_space_append "200" text (by decide), List.getElem?_cons_succ,
      getElem?_zero_of_ne_nil _ (pySplit_ne_nil ' ' text)]
  · rw [authResult_success ("201" ++ " " ++ text) (Or.inr rfl),
      pySplit_space_append "201" text (by decide), List.getElem?_cons_succ,
      getElem?_zero_of_ne_nil _ (pySplit_ne_nil ' ' text)]
  · intro code hc
    simp only [List.mem_cons, List.not_mem_nil, or_false] at hc
    rcases hc with rfl | rfl | rfl | rfl | rfl | rfl
    · rw [authResult_fail ("500" ++ " " ++ text) rfl rfl,
        pySplit_space_append "500" text (by decide), List.headD_cons]
    · rw [authResult_fail ("501" ++ " " ++ text) rfl rfl,
        pySplit_space_append "501" text (by decide), List.headD_cons]
    · rw [authResult_fail ("502" ++ " " ++ text) rfl rfl,
        pySplit_space_append "502" text (by decide), List.headD_cons]
    · rw [authResult_fail ("503" ++ " " ++ text) rfl rfl,
        pySplit_space_append "503" text (by decide), List.headD_cons]
    · rw [authResult_fail ("504" ++ " " ++ text) rfl rfl,
        pySplit_space_append "504" text (by decide), List.headD_cons]
    · rw [authResult_fail ("506" ++ " " ++ text) rfl rfl,
        pySplit_space_append "506" text (by decide), List.headD_cons]

/-- C8 witness at a concrete response text. -/
theorem c8_auth_status_mapping_witness :
    authResult ("200" ++ " " ++ "s3kr3t xtra")
      = some (true, (pySplit ' ' "s3kr3t xtra").headD "") ∧
    authResult ("504" ++ " " ++ "s3kr3t xtra") = some (false, "504") :=
  ⟨(c8_auth_status_mapping "s3kr3t xtra").1,
   (c8_auth_status_mapping "s3kr3t xtra").2.2 "504" (by decide)⟩

/-! ## Claim C1: session-invalid handling -/

/-- C1 counterexample: the claim says a session-invalid (501) query
response triggers one re-authentication and one replay. In a concrete run
whose transport would deliver a fresh session key and then a success, the
call instead ends in an uncaught exception (OSError: authenticate uses the
socket that close() just closed); only one ANIME query is ever sent, no
AUTH command is ever transmitted, and the re-auth and success datagrams
are never consumed. -/
theorem c1_counterexample :
    runQuery ⟨"u", "p", "KEY", false⟩
      ⟨["501 LOGIN FIRST", "byebye 203 LOGGED OUT", "200 NEWKEY",
        "230 X\n5|2021|TV|p|R|K|E|S|12|12|0|t|x|1,2|5,4"], [], 0⟩ "Foo" =
    ⟨PyRes.exn, ⟨"u", "p", "KEY", true⟩,
      ⟨["200 NEWKEY", "230 X\n5|2021|TV|p|R|K|E|S|12|12|0|t|x|1,2|5,4"],
        [], 0⟩,
      [Ev.send "ANIME aname=Foo&amask=b2f0e401070000&s=KEY" 0,
       Ev.recv "501 LOGIN FIRST",
       Ev.print "Session closed ... relogging",
       Ev.send "LOGOUT s=KEY&tag=byebye" 0,
       Ev.recv "byebye 203 LOGGED OUT"]⟩ ∧
    animeSendCount (runQuery ⟨"u", "p", "KEY", false⟩
      ⟨["501 LOGIN FIRST", "byebye 203 LOGGED OUT", "200 NEWKEY",
        "230 X\n5|2021|TV|p|R|K|E|S|12|12|0|t|x|1,2|5,4"], [], 0⟩ "Foo").trace
      = 1 ∧
    authSendCount (runQuery ⟨"u", "p", "KEY", false⟩
      ⟨["501 LOGIN FIRST", "byebye 203 LOGGED OUT", "200 NEWKEY",
        "230 X\n5|2021|TV|p|R|K|E|S|12|12|0|t|x|1,2|5,4"], [], 0⟩ "Foo").trace
      = 0 :=
  ⟨rfl, rfl, rfl⟩

/-- C1 amended: on a session-invalid (501) query response the client
prints, performs the LOGOUT round trip of close() and closes its socket,
and then crashes with an uncaught OSError when authenticate() calls sendto
on the closed socket: no AUTH command is transmitted, the query is never
replayed (exactly one ANIME send occurs), and the rest of the inbox is
left unconsumed. The re-login and replay on source lines 111-115 are
unreachable. -/
theorem c1_session_invalid_kills_query (c : Client) (net : Net)
    (name resp lresp : String) (rest : List String)
    (hc : c.sockClosed = false)
    (hin : net.inbox = resp :: lresp :: rest)
    (h501 : pyStartswith resp "501" = true)
    (h230 : pyStartswith resp "230" = false)
    (h330 : pyStartswith resp "330" = false) :
    (runQuery c net name).res = PyRes.exn ∧
    (runQuery c net name).client = { c with sockClosed := true } ∧
    (runQuery c net name).net.inbox = rest ∧
    animeSendCount (runQuery c net name).trace = 1 ∧
    authSendCount (runQuery c net name).trace = 0 := by
  unfold runQuery
  rw [hin]
  cases hby : pyStartswith lresp "byebye" <;>
    simp [hc, h230, h330, h501, hby, animeSendCount, authSendCount,
      List.countP_append, List.countP_cons, isAnimeCmd_nameCommand,
      isAnimeCmd_logoutCommand, isAuthCmd_nameCommand, isAuthCmd_logoutCommand]

/-- C1 amended witness at a concrete run. -/
theorem c1_session_invalid_kills_query_witness :
    (runQuery ⟨"u", "p", "KEY", false⟩
      ⟨["501 LOGIN FIRST", "byebye", "200 K2"], [], 0⟩ "Foo").res
      = PyRes.exn ∧
    (runQuery ⟨"u", "p", "KEY", false⟩
      ⟨["501 LOGIN FIRST", "byebye", "200 K2"], [], 0⟩ "Foo").client
      = { username := "u", password := "p", session_key := "KEY",
          sockClosed := true } ∧
    (runQuery ⟨"u", "p", "KEY", false⟩
      ⟨["501 LOGIN FIRST", "byebye", "200 K2"], [], 0⟩ "Foo").net.inbox
      = ["200 K2"] ∧
    animeSendCount (runQuery ⟨"u", "p", "KEY", false⟩
      ⟨["501 LOGIN FIRST", "byebye", "200 K2"], [], 0⟩ "Foo").trace = 1 ∧
    authSendCount (runQuery ⟨"u", "p", "KEY", false⟩
      ⟨["501 LOGIN FIRST", "byebye", "200 K2"], [], 0⟩ "Foo").trace = 0 :=
  c1_session_invalid_kills_query ⟨"u", "p", "KEY", false⟩
    ⟨["501 LOGIN FIRST", "byebye", "200 K2"], [], 0⟩ "Foo"
    "501 LOGIN FIRST" "byebye" ["200 K2"] rfl rfl rfl rfl rfl

/-! ## Claim C2: timeout retry policy -/

/-- C2 counterexample: the claim says that when every attempt times out
the operation performs exactly 3 send attempts and fails with
RetriesExhausted. In a concrete run where the transport never delivers a
reply, the client performs exactly one send and then blocks forever on
recvfrom; there is no retry, no timeout counter and no RetriesExhausted
outcome. -/
theorem c2_counterexample :
    (runQuery ⟨"u", "p", "KEY", false⟩ ⟨[], [], 0⟩ "Foo").res
      = PyRes.blocked ∧
    (runQuery ⟨"u", "p", "KEY", false⟩ ⟨[], [], 0⟩ "Foo").trace
      = [Ev.send "ANIME aname=Foo&amask=b2f0e401070000&s=KEY" 0] ∧
    animeSendCount (runQuery ⟨"u", "p", "KEY", false⟩ ⟨[], [], 0⟩ "Foo").trace
      = 1 :=
  ⟨rfl, rfl, rfl⟩

/-- C2 amended: the client sets no socket timeout and has no retry logic:
if the transport never delivers a reply, a query performs exactly one send
and then blocks forever in recvfrom; no consecutive-timeout counter exists
in the client state and no RetriesExhausted failure is ever produced. -/
theorem c2_no_timeout_no_retry (c : Client) (net : Net) (name : String)
    (hc : c.sockClosed = false) (hin : net.inbox = []) :
    (runQuery c net name).res = PyRes.blocked ∧
    (runQuery c net name).trace = [Ev.send (animeNameCommand c name) net.now] := by
  unfold runQuery
  rw [hin]
  simp [hc]

/-- C2 amended witness at a concrete run. -/
theorem c2_no_timeout_no_retry_witness :
    (runQuery ⟨"u", "p", "KEY", false⟩ ⟨[], [], 9⟩ "Bar").res
      = PyRes.blocked ∧
    (runQuery ⟨"u", "p", "KEY", false⟩ ⟨[], [], 9⟩ "Bar").trace
      = [Ev.send (animeNameCommand ⟨"u", "p", "KEY", false⟩ "Bar")
          (⟨[], [], 9⟩ : Net).now] :=
  c2_no_timeout_no_retry ⟨"u", "p", "KEY", false⟩ ⟨[], [], 9⟩ "Bar" rfl rfl

/-! ## Claim C3: minimum inter-command spacing -/

/-- C3 counterexample: the claim says two consecutive commands on one
session are never issued less than 2 time units apart. In a concrete run
(330 response, disambiguation id supplied) the client transmits two ANIME
commands at the same injected-clock instant 7, i.e. 0 time units apart,
and the run succeeds. -/
theorem c3_counterexample :
    sendTimes (runQuery ⟨"u", "p", "KEY", false⟩
      ⟨["330 NO SUCH ANIME",
        "230 X\n5|2021|TV|p|R|K|E|S|12|12|0|t|x|1,2|5,4"], [some "42"], 7⟩
      "Foo").trace = [7, 7] ∧
    (runQuery ⟨"u", "p", "KEY", false⟩
      ⟨["330 NO SUCH ANIME",
        "230 X\n5|2021|TV|p|R|K|E|S|12|12|0|t|x|1,2|5,4"], [some "42"], 7⟩
      "Foo").res
      = PyRes.val ⟨5, "2021", "TV", "R", "K", "S", 12, 12, 0, "t", "1,2", "5,4"⟩ :=
  ⟨rfl, rfl⟩

/-- C3 amended: the client never sleeps or waits before transmitting: the
injected clock is never advanced by a run, and every command of a run is
issued at the same clock instant, so no minimum inter-command spacing is
enforced (consecutive commands are 0 time units apart). -/
theorem c3_no_rate_limiting (c : Client) (net : Net) (name : String) :
    (runQuery c net name).net.now = net.now ∧
    ∀ t ∈ sendTimes (runQuery c net name).trace, t = net.now := by
  cases hsc : c.sockClosed with
  | true =>
    unfold runQuery
    simp [hsc, sendTimes]
  | false =>
    cases hin : net.inbox with
    | nil =>
      unfold runQuery
      rw [hin]
      simp [hsc, sendTimes]
    | cons resp rest =>
      by_cases h230 : pyStartswith resp "230" = true
      · cases hpr : process_response resp <;>
          · unfold runQuery
            rw [hin]
            simp [hsc, h230, hpr, sendTimes]
      · by_cases h330 : pyStartswith resp "330" = true
        · cases hdlg : net.dialogs with
          | nil =>
            unfold runQuery
            rw [hin, hdlg]
            simp [hsc, h230, h330, sendTimes]
          | cons d ds =>
            cases d with
            | none =>
              unfold runQuery
              rw [hin, hdlg]
              simp [hsc, h230, h330, sendTimes]
            | some id =>
              cases rest with
              | nil =>
                unfold runQuery
                rw [hin, hdlg]
                simp [hsc, h230, h330, sendTimes]
              | cons resp2 rest2 =>
                cases hpr2 : process_response resp2 <;>
                  · unfold runQuery
                    rw [hin, hdlg]
                    simp [hsc, h230, h330, hpr2, sendTimes]
        · by_cases h501 : pyStartswith resp "501" = true
          · cases rest with
            | nil =>
              unfold runQuery
              rw [hin]
              simp [hsc, h230, h330, h501, sendTimes]
            | cons lresp rest2 =>
              by_cases hbye : pyStartswith lresp "byebye" = true <;>
                · unfold runQuery
                  rw [hin]
                  simp [hsc, h230, h330, h501, hbye, sendTimes]
          · unfold runQuery
            rw [hin]
            simp [hsc, h230, h330, h501, sendTimes]

/-- C3 amended witness: in the concrete two-command run both transmissions
happen at the initial clock instant. -/
theorem c3_no_rate_limiting_witness :
    (runQuery ⟨"u", "p", "KEY", false⟩
      ⟨["330 NO SUCH ANIME",
        "230 X\n5|2021|TV|p|R|K|E|S|12|12|0|t|x|1,2|5,4"], [some "42"], 7⟩
      "Foo").net.now
      = (⟨["330 NO SUCH ANIME",
          "230 X\n5|2021|TV|p|R|K|E|S|12|12|0|t|x|1,2|5,4"], [some "42"], 7⟩
          : Net).now ∧
    (7 : Nat)
      = (⟨["330 NO SUCH ANIME",
          "230 X\n5|2021|TV|p|R|K|E|S|12|12|0|t|x|1,2|5,4"], [some "42"], 7⟩
          : Net).now :=
  ⟨(c3_no_rate_limiting ⟨"u", "p", "KEY", false⟩
      ⟨["330 NO SUCH ANIME",
        "230 X\n5|2021|TV|p|R|K|E|S|12|12|0|t|x|1,2|5,4"], [some "42"], 7⟩
      "Foo").1,
   (c3_no_rate_limiting ⟨"u", "p", "KEY", false⟩
      ⟨["330 NO SUCH ANIME",
        "230 X\n5|2021|TV|p|R|K|E|S|12|12|0|t|x|1,2|5,4"], [some "42"], 7⟩
      "Foo").2 7 (by decide)⟩

/-! ## Claim C6: short payloads fail the decode, session stays usable -/

/-- C6: a 230 response whose payload line has fewer than 15 pipe-delimited
positions fails the decode (AniDBClient raises, modelled none; the query
run ends in that exception) while the client state is left unchanged, so
the session remains usable; the async decoder likewise returns None on
such a payload. -/
theorem c6_short_payload_fails (c : Client) (net : Net)
    (name resp line data line2 : String) (rest : List String)
    (hc : c.sockClosed = false) (hin : net.inbox = resp :: rest)
    (h230 : pyStartswith resp "230" = true)
    (hline : (pySplit '\n' resp)[1]? = some line)
    (hshort : (pySplit '|' line).length < 15)
    (hline2 : (pySplit '\n' (pyStrip data))[1]? = some line2)
    (hshort2 : (pySplit '|' line2).length < 15) :
    process_response resp = none ∧
    (runQuery c net name).res = PyRes.exn ∧
    (runQuery c net name).client = c ∧
    (runQuery c net name).net.inbox = rest ∧
    processAnimeResponse data = none := by
  have hdec : process_response resp = none := by
    unfold process_response
    rw [hline]
    exact decodeParts_short _ hshort
  have hdecA : processAnimeResponse data = none := by
    unfold processAnimeResponse
    by_cases hcode : (pySplit ' ' (pyStrip data)).headD "" = "230"
    · rw [if_neg (by simpa using hcode)]
      rw [hline2]
      exact decodePartsA_short _ hshort2
    · rw [if_pos hcode]
  refine ⟨hdec, ?_, ?_, ?_, hdecA⟩
  all_goals
    unfold runQuery
    rw [hin]
    simp [hc, h230, hdec]

/-- C6 witness at a concrete short payload. -/
theorem c6_short_payload_fails_witness :
    process_response "230 X\na|b" = none ∧
    (runQuery ⟨"u", "p", "KEY", false⟩ ⟨["230 X\na|b"], [], 4⟩ "Foo").res
      = PyRes.exn ∧
    (runQuery ⟨"u", "p", "KEY", false⟩ ⟨["230 X\na|b"], [], 4⟩ "Foo").client
      = ⟨"u", "p", "KEY", false⟩ ∧
    (runQuery ⟨"u", "p", "KEY", false⟩ ⟨["230 X\na|b"], [], 4⟩ "Foo").net.inbox
      = [] ∧
    processAnimeResponse "230 Y\nc|d" = none :=
  c6_short_payload_fails ⟨"u", "p", "KEY", false⟩ ⟨["230 X\na|b"], [], 4⟩
    "Foo" "230 X\na|b" "a|b" "230 Y\nc|d" "c|d" [] rfl rfl rfl rfl
    (by decide) rfl (by decide)

/-! ## Claim C7: 330 handling -/

/-- C7 counterexample: the claim says a 330 response yields a non-fatal
NotFound result, with disambiguation left to the caller outside the core.
In a concrete run with a 330 response the client itself opens the
disambiguation dialog inside query_anidb, and when the dialog is
cancelled the process exits — no result is returned to the caller. -/
theorem c7_counterexample :
    runQuery ⟨"u", "p", "KEY", false⟩ ⟨["330 NO SUCH ANIME"], [none], 3⟩ "Foo" =
    ⟨PyRes.exited, ⟨"u", "p", "KEY", false⟩, ⟨[], [], 3⟩,
      [Ev.send "ANIME aname=Foo&amask=b2f0e401070000&s=KEY" 3,
       Ev.recv "330 NO SUCH ANIME",
       Ev.print "Hentai Foo not found",
       Ev.dialog "Foo",
       Ev.exited]⟩ :=
  rfl

/-- C7 amended: on a 330 query response the client opens the
AniDBFinderDialog itself (inside the core); if the dialog supplies an
identifier, the client immediately sends the by-id ANIME command and
returns the decode of the next reply, and if the dialog is cancelled the
client calls exit(), terminating the process — no NotFound value is ever
returned. -/
theorem c7_restricted_not_found_dialog (c : Client) (net : Net)
    (name resp : String) (rest : List String) (ds : List (Option String))
    (hc : c.sockClosed = false) (hin : net.inbox = resp :: rest)
    (h330 : pyStartswith resp "330" = true)
    (h230 : pyStartswith resp "230" = false) :
    (net.dialogs = none :: ds →
      (runQuery c net name).res = PyRes.exited ∧
      Ev.exited ∈ (runQuery c net name).trace ∧
      Ev.dialog name ∈ (runQuery c net name).trace) ∧
    (∀ id resp2 rest2, net.dialogs = some id :: ds →
      rest = resp2 :: rest2 →
      Ev.send (animeIdCommand c id) net.now ∈ (runQuery c net name).trace ∧
      Ev.dialog name ∈ (runQuery c net name).trace ∧
      (∀ r2, process_response resp2 = some r2 →
        (runQuery c net name).res = PyRes.val r2) ∧
      (process_response resp2 = none →
        (runQuery c net name).res = PyRes.exn)) := by
  constructor
  · intro hd
    unfold runQuery
    rw [hin, hd]
    simp [hc, h230, h330]
  · intro id resp2 rest2 hd hrest
    unfold runQuery
    rw [hin, hd, hrest]
    refine ⟨?_, ?_, ?_, ?_⟩
    · cases hpr2 : process_response resp2 <;> simp [hc, h230, h330, hpr2]
    · cases hpr2 : process_response resp2 <;> simp [hc, h230, h330, hpr2]
    · intro r2 hr2
      simp [hc, h230, h330, hr2]
    · intro hr2
      simp [hc, h230, h330, hr2]

/-- C7 amended witness: concrete cancelled-dialog run exits the process. -/
theorem c7_restricted_not_found_dialog_witness :
    (runQuery ⟨"u", "p", "KEY", false⟩ ⟨["330 NOPE"], [none], 3⟩ "Foo").res
      = PyRes.exited ∧
    Ev.exited ∈ (runQuery ⟨"u", "p", "KEY", false⟩
      ⟨["330 NOPE"], [none], 3⟩ "Foo").trace ∧
    Ev.dialog "Foo" ∈ (runQuery ⟨"u", "p", "KEY", false⟩
      ⟨["330 NOPE"], [none], 3⟩ "Foo").trace :=
  (c7_restricted_not_found_dialog ⟨"u", "p", "KEY", false⟩
    ⟨["330 NOPE"], [none], 3⟩ "Foo" "330 NOPE" [] [] rfl rfl rfl rfl).1 rfl

/-! ## Claim C9: typed results, no exits, no console output -/

/-- C9 counterexample: the claim says the core never terminates the
process or prints to a console. In a concrete run with an unexpected
status the client prints an error line and calls exit(). -/
theorem c9_counterexample :
    runQuery ⟨"u", "p", "KEY", false⟩ ⟨["600 WHAT"], [], 0⟩ "Foo" =
    ⟨PyRes.exited, ⟨"u", "p", "KEY", false⟩, ⟨[], [], 0⟩,
      [Ev.send "ANIME aname=Foo&amask=b2f0e401070000&s=KEY" 0,
       Ev.recv "600 WHAT",
       Ev.print "Error: closing programm Code: KEY",
       Ev.exited]⟩ :=
  rfl

/-- C9 amended: AniDBClient prints to the console and calls exit() instead
of returning typed errors: on any query response that is not a 230, 330 or
501, the client prints an error line containing its session key and
terminates the process. -/
theorem c9_unexpected_status_prints_and_exits (c : Client) (net : Net)
    (name resp : String) (rest : List String)
    (hc : c.sockClosed = false) (hin : net.inbox = resp :: rest)
    (h230 : pyStartswith resp "230" = false)
    (h330 : pyStartswith resp "330" = false)
    (h501 : pyStartswith resp "501" = false) :
    (runQuery c net name).res = PyRes.exited ∧
    Ev.print ("Error: closing programm Code: " ++ c.session_key)
      ∈ (runQuery c net name).trace ∧
    Ev.exited ∈ (runQuery c net name).trace := by
  unfold runQuery
  rw [hin]
  simp [hc, h230, h330, h501]

/-- C9 amended witness at a concrete run. -/
theorem c9_unexpected_status_prints_and_exits_witness :
    (runQuery ⟨"u", "p", "KEY", false⟩ ⟨["999 HUH"], [], 0⟩ "Foo").res
      = PyRes.exited ∧
    Ev.print ("Error: closing programm Code: " ++ "KEY")
      ∈ (runQuery ⟨"u", "p", "KEY", false⟩ ⟨["999 HUH"], [], 0⟩ "Foo").trace ∧
    Ev.exited
      ∈ (runQuery ⟨"u", "p", "KEY", false⟩ ⟨["999 HUH"], [], 0⟩ "Foo").trace :=
  c9_unexpected_status_prints_and_exits ⟨"u", "p", "KEY", false⟩
    ⟨["999 HUH"], [], 0⟩ "Foo" "999 HUH" [] rfl rfl rfl rfl rfl

/-! ## Claim C10: the async authenticate is broken before any send -/

/-- C10: for every credentials dict, AsyncAniDBClient.authenticate raises
before transmitting anything — a bare raise when the credentials are
invalid, otherwise an AttributeError on the undefined attribute
self.config (and the unbound name auth_params would raise next even if
config existed) — so it never succeeds, its request trace is empty, and
__aenter__ never returns normally. -/
theorem c10_async_authenticate_never_succeeds
    (credentials : List (String × String)) :
    ((asyncAuthenticate credentials).1 = AAuth.bareRaiseError ∨
     (asyncAuthenticate credentials).1 = AAuth.attrError "config") ∧
    (asyncAuthenticate credentials).2 = [] ∧
    (asyncAenter credentials = some AAuth.bareRaiseError ∨
     asyncAenter credentials = some (AAuth.attrError "config")) := by
  have hattr : asyncGetAttr "config" = none := rfl
  cases hemp : credentials.isEmpty <;>
    cases hkeys : credsHasKey credentials "username" &&
        credsHasKey credentials "password" <;>
      simp [asyncAuthenticate, asyncAenter, hemp, hkeys, hattr]

end AnimeWatcher

